import Mathlib

/-!
# Shallow embedding of `luminance-glutin` (`src/lib.rs`)

The crate is a thin wrapper over the `glutin` windowing/GL binding.  Its
effectful calls into the platform (window construction, making the GL context
current, cursor visibility, GL symbol loading, channel creation, thread spawn)
are modelled by an explicit `Effect` trace emitted by `open_window`, and the
platform itself by a `Backend` record (build outcome for a given builder,
primary-monitor dimensions).  The background relay thread's callback is a pure
function folded over the list of events the platform delivers, with the channel
queues and receiver liveness made explicit.

Rust `u32` values are carried through untouched (stored and returned, never
computed with), so they are modelled as `Nat`.  Rust `f32` values are likewise
only forwarded verbatim by this crate (no float arithmetic happens), so they
are modelled by an opaque wrapper `F32`.
-/

/-- Opaque model of a Rust `f32` value.  The crate performs no floating-point
arithmetic: `f32` values are only received from the platform and forwarded
verbatim, so their numeric semantics never matter. -/
structure F32 where
  bits : Int
deriving DecidableEq, Repr

/-- Models the `x as f32` cast applied to the `i32` cursor coordinates in the
`MouseMoved` arm.  Only the fact that a value is forwarded matters to the
crate, never the rounding behaviour of the cast. -/
def i32_as_f32 (x : Int) : F32 := ⟨x⟩

/-- glutin's `ElementState`. -/
inductive ElementState where
  | Pressed
  | Released
deriving DecidableEq, Repr

/-- glutin's `MouseButton`. -/
inductive MouseButton where
  | Left
  | Right
  | Middle
  | Other (n : Nat)
deriving DecidableEq, Repr

/-- glutin's `VirtualKeyCode`, modelled abstractly by its discriminant. -/
structure VirtualKeyCode where
  code : Nat
deriving DecidableEq, Repr

/-- glutin's `ModifiersState` (unused by the relay, but part of the
`KeyboardInput` payload). -/
structure ModifiersState where
  shift : Bool
  ctrl : Bool
  alt : Bool
  logo : Bool
deriving DecidableEq, Repr

/-- glutin's `MouseScrollDelta`. -/
inductive MouseScrollDelta where
  | LineDelta (x y : F32)
  | PixelDelta (x y : F32)
deriving DecidableEq, Repr

/-- glutin's `MouseCursor` (only the variants relevant to this crate). -/
inductive MouseCursor where
  | Default
  | NoneCursor
deriving DecidableEq, Repr

/-- glutin's `WindowEvent`.  The four arms the relay recognises are modelled
with their full payloads; the other variants of the real enum (`Resized`,
`Closed`, `ReceivedCharacter`, `Focused`, ...) are unrecognised by the relay
and are represented here by a sample of variants carrying their payloads. -/
inductive WindowEvent where
  | KeyboardInput (st : ElementState) (scancode : Nat)
      (key : Option VirtualKeyCode) (modifiers : ModifiersState)
  | MouseInput (st : ElementState) (button : MouseButton)
  | MouseMoved (x y : Int)
  | MouseWheel (delta : MouseScrollDelta) (phase : Nat)
  | Resized (w h : Nat)
  | Closed
  | ReceivedCharacter (c : Char)
  | Focused (b : Bool)
deriving DecidableEq, Repr

/-- glutin's `Event`.  In the glutin version this crate uses, `Event` has the
single variant `WindowEvent { window_id, event }` (which is why the relay's
closure destructures it irrefutably), so it is modelled as a record. -/
structure Event where
  window_id : Nat
  event : WindowEvent
deriving DecidableEq, Repr

/-- glutin's `Api` (only the variant used here plus a representative other). -/
inductive Api where
  | OpenGl
  | OpenGlEs
deriving DecidableEq, Repr

/-- glutin's `GlRequest`. -/
inductive GlRequest where
  | Latest
  | Specific (api : Api) (version : Nat × Nat)
deriving DecidableEq, Repr

/-- glutin's `GlProfile`. -/
inductive GlProfile where
  | Core
  | Compatibility
deriving DecidableEq, Repr

/-- A monitor handle, exposing its reported dimensions. -/
structure Monitor where
  dims : Nat × Nat
deriving DecidableEq, Repr

/-- Rust `MonitorId::get_dimensions`. -/
def Monitor.get_dimensions (m : Monitor) : Nat × Nat := m.dims

/-- A created platform window handle (opaque). -/
structure Window where
  id : Nat
deriving DecidableEq, Repr

/-- glutin's `CreationError`, modelled abstractly by a discriminant. -/
structure CreationError where
  code : Nat
deriving DecidableEq, Repr

/-- Embeds `DeviceError` from `src/lib.rs`: the single variant wraps the underlying
`CreationError`. -/
inductive DeviceError where
  | CreationError (e : CreationError)
deriving DecidableEq, Repr

/-- Embeds `WindowDim` from `src/lib.rs`. -/
inductive WindowDim where
  | Windowed (w h : Nat)
  | Fullscreen
  | FullscreenRestricted (w h : Nat)
deriving DecidableEq, Repr

/-- Embeds `WindowOpt` from `src/lib.rs`: one field, `hide_cursor`. -/
structure WindowOpt where
  hide_cursor : Bool
deriving DecidableEq, Repr

/-- Rust `impl Default for WindowOpt`: cursor visible. -/
def WindowOpt.default : WindowOpt :=
  { hide_cursor := false }

/-- Rust `WindowOpt::hide_cursor` (the builder method; primed because the Lean
field projection already uses the Rust name). -/
def WindowOpt.hide_cursor' (self : WindowOpt) (hide : Bool) : WindowOpt :=
  { self with hide_cursor := hide }

/-- Rust `WindowOpt::is_cursor_hidden`. -/
def WindowOpt.is_cursor_hidden (self : WindowOpt) : Bool :=
  self.hide_cursor

/-- glutin's `WindowBuilder`: the configuration accumulated by the builder
calls this crate makes. -/
structure WindowBuilder where
  title : Option String
  dimensions : Option (Nat × Nat)
  fullscreen : Option Monitor
  gl_request : Option GlRequest
  gl_profile : Option GlProfile
deriving DecidableEq, Repr

/-- Rust `WindowBuilder::new()`. -/
def WindowBuilder.new : WindowBuilder :=
  ⟨none, none, none, none, none⟩

/-- Rust `WindowBuilder::with_title`. -/
def WindowBuilder.with_title (b : WindowBuilder) (t : String) : WindowBuilder :=
  { b with title := some t }

/-- Rust `WindowBuilder::with_dimensions`. -/
def WindowBuilder.with_dimensions (b : WindowBuilder) (w h : Nat) : WindowBuilder :=
  { b with dimensions := some (w, h) }

/-- Rust `WindowBuilder::with_fullscreen`. -/
def WindowBuilder.with_fullscreen (b : WindowBuilder) (m : Monitor) : WindowBuilder :=
  { b with fullscreen := some m }

/-- Rust `WindowBuilder::with_gl`. -/
def WindowBuilder.with_gl (b : WindowBuilder) (r : GlRequest) : WindowBuilder :=
  { b with gl_request := some r }

/-- Rust `WindowBuilder::with_gl_profile`. -/
def WindowBuilder.with_gl_profile (b : WindowBuilder) (p : GlProfile) : WindowBuilder :=
  { b with gl_profile := some p }

/-- The platform backend the crate runs against: the primary monitor reported
by `get_primary_monitor()` and, for each fully-configured builder, the outcome
of `WindowBuilder::build_strict`. -/
structure Backend where
  primary_monitor : Monitor
  build_strict : WindowBuilder → Except CreationError Window

/-- Rust `glutin::get_primary_monitor()`. -/
def get_primary_monitor (backend : Backend) : Monitor :=
  backend.primary_monitor

/-- The observable platform effects `open_window` performs, in order. -/
inductive Effect where
  /-- a `build_strict` call on the given fully-configured builder -/
  | BuildWindow (b : WindowBuilder)
  /-- `window.make_current()` -/
  | MakeCurrent (w : Window)
  /-- `window.set_cursor(c)` -/
  | SetCursor (w : Window) (c : MouseCursor)
  /-- `gl::load_with(|s| window.get_proc_address(s))` -/
  | GlLoad (w : Window)
  /-- the four `channel()` calls -/
  | CreateChannels
  /-- `spawn` of the relay thread -/
  | SpawnRelayThread
deriving DecidableEq, Repr

/-- Embeds `Device` from `src/lib.rs`.  The receiver ends, thread handle and events
loop are opaque handles whose dynamic behaviour is modelled separately (the
relay fold below), so they are `Unit` here. -/
structure Device where
  w : Nat
  h : Nat
  kbd : Unit
  mouse : Unit
  cursor : Unit
  scroll : Unit
  window : Window
  event_thread : Unit
  events_loop : Unit
deriving DecidableEq, Repr

/-- Rust `Device::width`. -/
def Device.width (self : Device) : Nat := self.w

/-- Rust `Device::height`. -/
def Device.height (self : Device) : Nat := self.h

/-- The OpenGL hint `gl_version` from `open_window`. -/
def gl_version : GlRequest := GlRequest.Specific Api.OpenGl (3, 3)

/-- The OpenGL hint `gl_profile` from `open_window`. -/
def gl_profile : GlProfile := GlProfile.Core

/-- The `decorate_window_builder` closure from `open_window`, lambda-lifted
(its captures `backend`/`title` made explicit): adds the title, the GL version
request and the GL profile, then calls `build_strict`, mapping the error into
`DeviceError::CreationError`.  Also returns the build effect performed. -/
def decorate_window_builder (backend : Backend) (title : String)
    (builder : WindowBuilder) : Except DeviceError Window × List Effect :=
  let full :=
    ((builder.with_title title).with_gl gl_version).with_gl_profile gl_profile
  match backend.build_strict full with
  | Except.error e =>
      (Except.error (DeviceError.CreationError e), [Effect.BuildWindow full])
  | Except.ok window => (Except.ok window, [Effect.BuildWindow full])

/-- The builder `open_window` hands to `build_strict` for a given `dim`:
per-arm base builder, then the `decorate_window_builder` closure adds the
title, the GL version request and the GL profile. -/
def requested_builder (backend : Backend) (dim : WindowDim) (title : String) :
    WindowBuilder :=
  let base : WindowBuilder :=
    match dim with
    | WindowDim.Windowed w h => WindowBuilder.new.with_dimensions w h
    | WindowDim.Fullscreen =>
        WindowBuilder.new.with_fullscreen (get_primary_monitor backend)
    | WindowDim.FullscreenRestricted w h =>
        (WindowBuilder.new.with_dimensions w h).with_fullscreen
          (get_primary_monitor backend)
  ((base.with_title title).with_gl gl_version).with_gl_profile gl_profile

/-- The `(w, h)` pair each `match dim` arm of `open_window` stores in the
`Device` on success: the requested dimensions, except for `Fullscreen` where
they are the primary monitor's reported dimensions. -/
def requested_dims (backend : Backend) (dim : WindowDim) : Nat × Nat :=
  match dim with
  | WindowDim.Windowed w h => (w, h)
  | WindowDim.Fullscreen => (get_primary_monitor backend).get_dimensions
  | WindowDim.FullscreenRestricted w h => (w, h)

/-- Embeds `open_window` from `src/lib.rs`.  Returns the `Result` together with the
trace of platform effects performed during the call, in order.  The `?` early
return in each `match dim` arm means a failed `build_strict` aborts the call
right after the (single) build attempt. -/
def open_window (backend : Backend) (dim : WindowDim) (title : String)
    (win_opt : WindowOpt) : Except DeviceError Device × List Effect :=
  -- open a window in windowed or fullscreen mode (`?` propagates the error)
  let built : Except DeviceError (Window × Nat × Nat) × List Effect :=
    match dim with
    | WindowDim.Windowed w h =>
        match decorate_window_builder backend title
            (WindowBuilder.new.with_dimensions w h) with
        | (Except.error e, tr) => (Except.error e, tr)
        | (Except.ok window, tr) => (Except.ok (window, w, h), tr)
    | WindowDim.Fullscreen =>
        let primary_monitor := get_primary_monitor backend
        let (w, h) := primary_monitor.get_dimensions
        match decorate_window_builder backend title
            (WindowBuilder.new.with_fullscreen primary_monitor) with
        | (Except.error e, tr) => (Except.error e, tr)
        | (Except.ok window, tr) => (Except.ok (window, w, h), tr)
    | WindowDim.FullscreenRestricted w h =>
        let primary_monitor := get_primary_monitor backend
        match decorate_window_builder backend title
            ((WindowBuilder.new.with_dimensions w h).with_fullscreen
              primary_monitor) with
        | (Except.error e, tr) => (Except.error e, tr)
        | (Except.ok window, tr) => (Except.ok (window, w, h), tr)
  match built with
  | (Except.error e, tr) => (Except.error e, tr)
  | (Except.ok (window, w, h), tr) =>
      (Except.ok
        { w := w, h := h, kbd := (), mouse := (), cursor := (), scroll := (),
          window := window, event_thread := (), events_loop := () },
       tr ++ [Effect.MakeCurrent window]
          ++ (if win_opt.hide_cursor then
                [Effect.SetCursor window MouseCursor.NoneCursor]
              else [])
          ++ [Effect.GlLoad window, Effect.CreateChannels,
              Effect.SpawnRelayThread])

/-- The channel queues: the items each `mpsc` channel currently holds, oldest
first.  `kbd`, `mouse`, `cursor`, `scroll` match the four channels created in
`open_window`. -/
structure Channels where
  kbd : List (VirtualKeyCode × ElementState)
  mouse : List (MouseButton × ElementState)
  cursor : List (F32 × F32)
  scroll : List (F32 × F32)
deriving DecidableEq, Repr

/-- The four freshly created channels: all empty. -/
def Channels.empty : Channels := ⟨[], [], [], []⟩

/-- Which receiver ends are still alive (not dropped).  `mpsc` sends fail
exactly when the receiver has been dropped. -/
structure Receivers where
  kbd : Bool
  mouse : Bool
  cursor : Bool
  scroll : Bool
deriving DecidableEq, Repr

/-- All four receivers alive (the state right after `open_window`). -/
def Receivers.all_alive : Receivers := ⟨true, true, true, true⟩

/-- Rust `Sender::send` on an `mpsc` channel: enqueues when the receiver is alive,
otherwise fails, returning the queue unchanged together with the success flag
(the relay discards the flag via `let _ = ...`). -/
def mpsc_send {α : Type} (alive : Bool) (queue : List α) (x : α) :
    List α × Bool :=
  if alive then (queue ++ [x], true) else (queue, false)

/-- The closure the relay thread passes to `events_loop.run_forever`: the
`match event { ... }` block from `open_window`, acting on the channel queues.
Each send's result is discarded (`let _ = ...`), so a failed send leaves the
queues unchanged and the callback still returns normally. -/
def relay_callback (alive : Receivers) (cs : Channels) (ev : Event) :
    Channels :=
  match ev.event with
  | WindowEvent.KeyboardInput st _ (some key) _ =>
      { cs with kbd := (mpsc_send alive.kbd cs.kbd (key, st)).1 }
  | WindowEvent.MouseInput st button =>
      { cs with mouse := (mpsc_send alive.mouse cs.mouse (button, st)).1 }
  | WindowEvent.MouseMoved x y =>
      { cs with cursor :=
          (mpsc_send alive.cursor cs.cursor (i32_as_f32 x, i32_as_f32 y)).1 }
  | WindowEvent.MouseWheel (MouseScrollDelta.LineDelta x y) _ =>
      { cs with scroll := (mpsc_send alive.scroll cs.scroll (x, y)).1 }
  | WindowEvent.MouseWheel (MouseScrollDelta.PixelDelta x y) _ =>
      { cs with scroll := (mpsc_send alive.scroll cs.scroll (x, y)).1 }
  | _ => cs

/-- Embeds `events_loop.run_forever` on the relay thread, applied to the sequence of
events the platform delivers (in delivery order): folds the callback over
them.  The loop never terminates or panics on its own, so after any finite
prefix of deliveries the queues are this fold. -/
def run_forever (alive : Receivers) (cs : Channels) (events : List Event) :
    Channels :=
  events.foldl (relay_callback alive) cs

/-- Spec-side extractor (from the claim's words, for comparison with the
relay): the keyboard item a delivered event should produce, if any. -/
def spec_kbd_item (ev : Event) : Option (VirtualKeyCode × ElementState) :=
  match ev.event with
  | WindowEvent.KeyboardInput st _ (some key) _ => some (key, st)
  | _ => none

/-- Spec-side extractor: the mouse-button item an event should produce. -/
def spec_mouse_item (ev : Event) : Option (MouseButton × ElementState) :=
  match ev.event with
  | WindowEvent.MouseInput st button => some (button, st)
  | _ => none

/-- Spec-side extractor: the cursor-move item an event should produce. -/
def spec_cursor_item (ev : Event) : Option (F32 × F32) :=
  match ev.event with
  | WindowEvent.MouseMoved x y => some (i32_as_f32 x, i32_as_f32 y)
  | _ => none

/-- Spec-side extractor: the scroll item an event should produce (line-delta
or pixel-delta form). -/
def spec_scroll_item (ev : Event) : Option (F32 × F32) :=
  match ev.event with
  | WindowEvent.MouseWheel (MouseScrollDelta.LineDelta x y) _ => some (x, y)
  | WindowEvent.MouseWheel (MouseScrollDelta.PixelDelta x y) _ => some (x, y)
  | _ => none

/-- The observable events of one `draw` call: actions performed inside the
caller's closure (of an arbitrary action type `α`), and buffer swaps. -/
inductive FrameEffect (α : Type) where
  | ClosureAction (a : α)
  | SwapBuffers (w : Window)
deriving DecidableEq, Repr

/-- Rust `window.swap_buffers()`: one swap effect on this window. -/
def Window.swap_buffers {α : Type} (self : Window) : List (FrameEffect α) :=
  [FrameEffect.SwapBuffers self]

/-- Embeds `Device::draw` from `src/lib.rs`: runs the caller's closure `f` (modelled
as a state transformer that also emits a list of its observable actions), then
calls `self.window.swap_buffers()`.  Returns the closure's final state and the
full effect trace of the call, in order.  Total: no return value beyond the
modelled state, no error path. -/
def Device.draw {σ α : Type} (self : Device) (f : σ → σ × List α) (s : σ) :
    σ × List (FrameEffect α) :=
  let (s1, actions) := f s
  (s1, actions.map FrameEffect.ClosureAction ++ Window.swap_buffers self.window)

/-- The effect trace of a successful `open_window` call, in order: the single
build, make-current, the optional cursor-hide call, GL load, channel creation,
relay-thread spawn. -/
def success_trace (builder : WindowBuilder) (window : Window)
    (win_opt : WindowOpt) : List Effect :=
  [Effect.BuildWindow builder, Effect.MakeCurrent window]
    ++ (if win_opt.hide_cursor then
          [Effect.SetCursor window MouseCursor.NoneCursor]
        else [])
    ++ [Effect.GlLoad window, Effect.CreateChannels, Effect.SpawnRelayThread]

/-- Recognizer for `build_strict` calls in an effect trace. -/
def is_build_effect (eff : Effect) : Bool :=
  match eff with
  | Effect.BuildWindow _ => true
  | _ => false

/-- Recognizer for cursor-visibility calls in an effect trace. -/
def is_set_cursor_effect (eff : Effect) : Bool :=
  match eff with
  | Effect.SetCursor _ _ => true
  | _ => false

/-- Recognizer for the three effects whose relative order matters for the
context/GL/relay hand-off: make-current, GL load, relay-thread spawn. -/
def is_sync_effect (eff : Effect) : Bool :=
  match eff with
  | Effect.MakeCurrent _ => true
  | Effect.GlLoad _ => true
  | Effect.SpawnRelayThread => true
  | _ => false

/-- The actions the caller's closure performed, read back off a `draw` trace
(in order). -/
def closure_actions {α : Type} (tr : List (FrameEffect α)) : List α :=
  tr.filterMap fun e =>
    match e with
    | FrameEffect.ClosureAction a => some a
    | FrameEffect.SwapBuffers _ => none

/-- The number of buffer swaps in a `draw` trace. -/
def swap_count {α : Type} (tr : List (FrameEffect α)) : Nat :=
  tr.countP fun e =>
    match e with
    | FrameEffect.SwapBuffers _ => true
    | FrameEffect.ClosureAction _ => false

/-- A concrete backend whose primary monitor reports 800x600 and on which
every window build succeeds (yielding window handle 0). -/
def ok_backend : Backend :=
  { primary_monitor := ⟨(800, 600)⟩, build_strict := fun _ => Except.ok ⟨0⟩ }

/-- A concrete backend on which every window build fails with creation error
discriminant 7. -/
def fail_backend : Backend :=
  { primary_monitor := ⟨(800, 600)⟩,
    build_strict := fun _ => Except.error ⟨7⟩ }

/-- The device `open_window ok_backend (Windowed 800 600) "t" default`
produces. -/
def dev800 : Device :=
  { w := 800, h := 600, kbd := (), mouse := (), cursor := (), scroll := (),
    window := ⟨0⟩, event_thread := (), events_loop := () }

/-- The trace of that call. -/
def trace800 : List Effect :=
  success_trace (requested_builder ok_backend (WindowDim.Windowed 800 600) "t")
    ⟨0⟩ WindowOpt.default

/-- The device `open_window ok_backend (Windowed 1 1) "t"
(default.hide_cursor(true))` produces. -/
def dev_hide : Device :=
  { w := 1, h := 1, kbd := (), mouse := (), cursor := (), scroll := (),
    window := ⟨0⟩, event_thread := (), events_loop := () }

/-- The trace of that call. -/
def trace_hide : List Effect :=
  success_trace (requested_builder ok_backend (WindowDim.Windowed 1 1) "t")
    ⟨0⟩ (WindowOpt.default.hide_cursor' true)

/-- Characterization of `open_window` when `build_strict` fails: the error is
wrapped and returned at once, the trace holding only the build attempt. -/
theorem open_window_eq_of_build_error (backend : Backend) (dim : WindowDim)
    (title : String) (win_opt : WindowOpt) (ce : CreationError)
    (h : backend.build_strict (requested_builder backend dim title) =
      Except.error ce) :
    open_window backend dim title win_opt =
      (Except.error (DeviceError.CreationError ce),
       [Effect.BuildWindow (requested_builder backend dim title)]) := by
  obtain ⟨⟨⟨pw, ph⟩⟩, bs⟩ := backend
  cases dim <;>
    simp [requested_builder, get_primary_monitor, Monitor.get_dimensions] at h <;>
    simp [open_window, decorate_window_builder, get_primary_monitor,
      Monitor.get_dimensions, requested_builder, h]

/-- Characterization of `open_window` when `build_strict` succeeds: the device
holds the per-`dim` dimensions and the built window, and the full effect trace
is performed in order. -/
theorem open_window_eq_of_build_ok (backend : Backend) (dim : WindowDim)
    (title : String) (win_opt : WindowOpt) (window : Window)
    (h : backend.build_strict (requested_builder backend dim title) =
      Except.ok window) :
    open_window backend dim title win_opt =
      (Except.ok
        { w := (requested_dims backend dim).1, h := (requested_dims backend dim).2,
          kbd := (), mouse := (), cursor := (), scroll := (), window := window,
          event_thread := (), events_loop := () },
       success_trace (requested_builder backend dim title) window win_opt) := by
  obtain ⟨⟨⟨pw, ph⟩⟩, bs⟩ := backend
  cases dim <;>
    simp [requested_builder, get_primary_monitor, Monitor.get_dimensions] at h <;>
    simp [open_window, decorate_window_builder, get_primary_monitor,
      Monitor.get_dimensions, requested_builder, requested_dims, success_trace, h]

/-- One callback invocation's effect on the keyboard queue. -/
theorem relay_callback_kbd (alive : Receivers) (cs : Channels) (ev : Event) :
    (relay_callback alive cs ev).kbd =
      cs.kbd ++ (if alive.kbd then (spec_kbd_item ev).toList else []) := by
  obtain ⟨wid, e⟩ := ev
  cases halive : alive.kbd <;>
    cases e <;>
    simp_all [relay_callback, spec_kbd_item, mpsc_send]
  case false.KeyboardInput st scan key mods =>
    cases key <;> simp [relay_callback, mpsc_send, halive]
  case false.MouseWheel delta phase =>
    cases delta <;> simp [relay_callback, mpsc_send, halive]
  case true.KeyboardInput st scan key mods =>
    cases key <;> simp [relay_callback, mpsc_send, halive]
  case true.MouseWheel delta phase =>
    cases delta <;> simp [relay_callback, mpsc_send, halive]

/-- One callback invocation's effect on the mouse-button queue. -/
theorem relay_callback_mouse (alive : Receivers) (cs : Channels) (ev : Event) :
    (relay_callback alive cs ev).mouse =
      cs.mouse ++ (if alive.mouse then (spec_mouse_item ev).toList else []) := by
  obtain ⟨wid, e⟩ := ev
  cases halive : alive.mouse <;>
    cases e <;>
    simp_all [relay_callback, spec_mouse_item, mpsc_send]
  case false.KeyboardInput st scan key mods =>
    cases key <;> simp [relay_callback, mpsc_send, halive]
  case false.MouseWheel delta phase =>
    cases delta <;> simp [relay_callback, mpsc_send, halive]
  case true.KeyboardInput st scan key mods =>
    cases key <;> simp [relay_callback, mpsc_send, halive]
  case true.MouseWheel delta phase =>
    cases delta <;> simp [relay_callback, mpsc_send, halive]

/-- One callback invocation's effect on the cursor-position queue. -/
theorem relay_callback_cursor (alive : Receivers) (cs : Channels) (ev : Event) :
    (relay_callback alive cs ev).cursor =
      cs.cursor ++ (if alive.cursor then (spec_cursor_item ev).toList else []) := by
  obtain ⟨wid, e⟩ := ev
  cases halive : alive.cursor <;>
    cases e <;>
    simp_all [relay_callback, spec_cursor_item, mpsc_send]
  case false.KeyboardInput st scan key mods =>
    cases key <;> simp [relay_callback, mpsc_send, halive]
  case false.MouseWheel delta phase =>
    cases delta <;> simp [relay_callback, mpsc_send, halive]
  case true.KeyboardInput st scan key mods =>
    cases key <;> simp [relay_callback, mpsc_send, halive]
  case true.MouseWheel delta phase =>
    cases delta <;> simp [relay_callback, mpsc_send, halive]

/-- One callback invocation's effect on the scroll queue. -/
theorem relay_callback_scroll (alive : Receivers) (cs : Channels) (ev : Event) :
    (relay_callback alive cs ev).scroll =
      cs.scroll ++ (if alive.scroll then (spec_scroll_item ev).toList else []) := by
  obtain ⟨wid, e⟩ := ev
  cases halive : alive.scroll <;>
    cases e <;>
    simp_all [relay_callback, spec_scroll_item, mpsc_send]
  case false.KeyboardInput st scan key mods =>
    cases key <;> simp [relay_callback, mpsc_send, halive]
  case false.MouseWheel delta phase =>
    cases delta <;> simp [relay_callback, mpsc_send, halive]
  case true.KeyboardInput st scan key mods =>
    cases key <;> simp [relay_callback, mpsc_send, halive]
  case true.MouseWheel delta phase =>
    cases delta <;> simp [relay_callback, mpsc_send, halive]

/-- Folding the callback over a delivery sequence: the keyboard queue grows by
the (order-preserving) keyboard items, or stays put if its receiver died. -/
theorem run_forever_kbd (alive : Receivers) (cs : Channels)
    (events : List Event) :
    (run_forever alive cs events).kbd =
      cs.kbd ++ (if alive.kbd then events.filterMap spec_kbd_item else []) := by
  induction events generalizing cs with
  | nil => cases alive.kbd <;> simp [run_forever]
  | cons e es ih =>
      have step := relay_callback_kbd alive cs e
      cases halive : alive.kbd <;>
        simp_all [run_forever, List.foldl_cons, Option.toList]
      cases h : spec_kbd_item e <;> simp_all

/-- Folding the callback over a delivery sequence: the mouse-button queue. -/
theorem run_forever_mouse (alive : Receivers) (cs : Channels)
    (events : List Event) :
    (run_forever alive cs events).mouse =
      cs.mouse ++ (if alive.mouse then events.filterMap spec_mouse_item else []) := by
  induction events generalizing cs with
  | nil => cases alive.mouse <;> simp [run_forever]
  | cons e es ih =>
      have step := relay_callback_mouse alive cs e
      cases halive : alive.mouse <;>
        simp_all [run_forever, List.foldl_cons, Option.toList]
      cases h : spec_mouse_item e <;> simp_all

/-- Folding the callback over a delivery sequence: the cursor queue. -/
theorem run_forever_cursor (alive : Receivers) (cs : Channels)
    (events : List Event) :
    (run_forever alive cs events).cursor =
      cs.cursor ++ (if alive.cursor then events.filterMap spec_cursor_item else []) := by
  induction events generalizing cs with
  | nil => cases alive.cursor <;> simp [run_forever]
  | cons e es ih =>
      have step := relay_callback_cursor alive cs e
      cases halive : alive.cursor <;>
        simp_all [run_forever, List.foldl_cons, Option.toList]
      cases h : spec_cursor_item e <;> simp_all

/-- Folding the callback over a delivery sequence: the scroll queue. -/
theorem run_forever_scroll (alive : Receivers) (cs : Channels)
    (events : List Event) :
    (run_forever alive cs events).scroll =
      cs.scroll ++ (if alive.scroll then events.filterMap spec_scroll_item else []) := by
  induction events generalizing cs with
  | nil => cases alive.scroll <;> simp [run_forever]
  | cons e es ih =>
      have step := relay_callback_scroll alive cs e
      cases halive : alive.scroll <;>
        simp_all [run_forever, List.foldl_cons, Option.toList]
      cases h : spec_scroll_item e <;> simp_all

/-- C5: `WindowOpt::default().is_cursor_hidden()` is `false` (cursor visible
by default), and for every `WindowOpt` `o` and boolean `b`,
`o.hide_cursor(b).is_cursor_hidden() == b`: the builder stores exactly the
given flag. -/
theorem window_opt_default_and_builder_flag :
    WindowOpt.default.is_cursor_hidden = false ∧
    ∀ (o : WindowOpt) (b : Bool), (o.hide_cursor' b).is_cursor_hidden = b :=
  ⟨rfl, fun _ _ => rfl⟩

/-- C10: a platform keyboard-input event whose virtual keycode is `None` is
silently dropped by the relay: the callback leaves every channel queue (kbd
included) unchanged, for any receiver liveness and any prior queue contents. -/
theorem keyboard_event_without_keycode_dropped (alive : Receivers)
    (cs : Channels) (wid : Nat) (st : ElementState) (scancode : Nat)
    (mods : ModifiersState) :
    relay_callback alive cs
      ⟨wid, WindowEvent.KeyboardInput st scancode none mods⟩ = cs := rfl

/-- C4: with all four receivers alive, for every sequence of platform events
delivered to the relay, each recognized event produces exactly one item on the
matching receiver's channel, items appear in delivery order, and unrecognized
event kinds (those with no extracted item) produce no item on any channel:
each queue equals the order-preserving `filterMap` of its extractor over the
delivery sequence. -/
theorem relay_forwards_each_recognized_event_in_order (events : List Event) :
    (run_forever Receivers.all_alive Channels.empty events).kbd =
        events.filterMap spec_kbd_item ∧
    (run_forever Receivers.all_alive Channels.empty events).mouse =
        events.filterMap spec_mouse_item ∧
    (run_forever Receivers.all_alive Channels.empty events).cursor =
        events.filterMap spec_cursor_item ∧
    (run_forever Receivers.all_alive Channels.empty events).scroll =
        events.filterMap spec_scroll_item := by
  refine ⟨?_, ?_, ?_, ?_⟩
  · simp [run_forever_kbd, Receivers.all_alive, Channels.empty]
  · simp [run_forever_mouse, Receivers.all_alive, Channels.empty]
  · simp [run_forever_cursor, Receivers.all_alive, Channels.empty]
  · simp [run_forever_scroll, Receivers.all_alive, Channels.empty]

/-- C8: a failed channel send (receiver dropped) is swallowed silently.  For
any combination of dropped receivers, the relay fold is total over the whole
delivery sequence (it neither panics nor stops): each still-alive channel
receives every one of its items, in order, while a dead channel's sends are
simply discarded. -/
theorem relay_swallows_send_failures_and_continues (alive : Receivers)
    (events : List Event) :
    (run_forever alive Channels.empty events).kbd =
        (if alive.kbd then events.filterMap spec_kbd_item else []) ∧
    (run_forever alive Channels.empty events).mouse =
        (if alive.mouse then events.filterMap spec_mouse_item else []) ∧
    (run_forever alive Channels.empty events).cursor =
        (if alive.cursor then events.filterMap spec_cursor_item else []) ∧
    (run_forever alive Channels.empty events).scroll =
        (if alive.scroll then events.filterMap spec_scroll_item else []) := by
  refine ⟨?_, ?_, ?_, ?_⟩
  · simp [run_forever_kbd, Channels.empty]
  · simp [run_forever_mouse, Channels.empty]
  · simp [run_forever_cursor, Channels.empty]
  · simp [run_forever_scroll, Channels.empty]

/-- Reading the closure's actions back off a `draw`-shaped trace recovers
them exactly. -/
theorem closure_actions_round_trip {α : Type} (w : Window) (l : List α) :
    closure_actions
      (l.map FrameEffect.ClosureAction ++ [FrameEffect.SwapBuffers w]) = l := by
  induction l with
  | nil => rfl
  | cons a l ih => simp_all [closure_actions]

/-- A `draw`-shaped trace holds exactly one buffer swap. -/
theorem swap_count_round_trip {α : Type} (w : Window) (l : List α) :
    swap_count
      (l.map FrameEffect.ClosureAction ++ [FrameEffect.SwapBuffers w]) = 1 := by
  induction l with
  | nil => rfl
  | cons a l ih => simp_all [swap_count, List.countP_cons]

/-- The buffer swap is the last entry of a `draw`-shaped trace. -/
theorem frame_trace_last {α : Type} (w : Window) (l : List α) :
    (l.map FrameEffect.ClosureAction ++ [FrameEffect.SwapBuffers w]).getLast? =
      some (FrameEffect.SwapBuffers w) := by
  simp [List.getLast?_concat]

/-- C3: `Device::draw(f)` runs the caller's closure exactly once (its final
state is one application of `f`, and its emitted actions appear exactly once,
in order), then performs exactly one buffer swap, which comes last — also for
a no-op closure, whose call yields exactly the single swap.  `draw` is a total
function with no error path. -/
theorem draw_invokes_closure_once_then_swaps (σ α : Type) (d : Device)
    (f : σ → σ × List α) (s : σ) :
    (Device.draw d f s).1 = (f s).1 ∧
    closure_actions (Device.draw d f s).2 = (f s).2 ∧
    swap_count (Device.draw d f s).2 = 1 ∧
    (Device.draw d f s).2.getLast? = some (FrameEffect.SwapBuffers d.window) ∧
    Device.draw d (fun t => (t, ([] : List α))) s =
      (s, [FrameEffect.SwapBuffers d.window]) := by
  refine ⟨?_, ?_, ?_, ?_, ?_⟩
  · cases hfs : f s with
    | mk s1 actions => simp [Device.draw, hfs, Window.swap_buffers]
  · cases hfs : f s with
    | mk s1 actions =>
        simp [Device.draw, hfs, Window.swap_buffers, closure_actions_round_trip]
  · cases hfs : f s with
    | mk s1 actions =>
        simp [Device.draw, hfs, Window.swap_buffers, swap_count_round_trip]
  · cases hfs : f s with
    | mk s1 actions =>
        simp [Device.draw, hfs, Window.swap_buffers, frame_trace_last]
  · simp [Device.draw, Window.swap_buffers]

/-- C1: whenever `open_window(dim, title, opt)` returns `Ok(device)`, the
device's `width()`/`height()` equal the requested dimensions for
`Windowed(w,h)` and `FullscreenRestricted(w,h)`, and the primary display's
reported dimensions for `Fullscreen` (the only other outcome being a
`DeviceError`, by the result type). -/
theorem open_window_size_matches_request (backend : Backend) (dim : WindowDim)
    (title : String) (opt : WindowOpt) (d : Device) (tr : List Effect)
    (h : open_window backend dim title opt = (Except.ok d, tr)) :
    match dim with
    | WindowDim.Windowed w hh => d.width = w ∧ d.height = hh
    | WindowDim.Fullscreen =>
        d.width = ((get_primary_monitor backend).get_dimensions).1 ∧
        d.height = ((get_primary_monitor backend).get_dimensions).2
    | WindowDim.FullscreenRestricted w hh => d.width = w ∧ d.height = hh := by
  cases hb : backend.build_strict (requested_builder backend dim title) with
  | error ce =>
      rw [open_window_eq_of_build_error backend dim title opt ce hb] at h
      exact absurd h (by simp)
  | ok window =>
      rw [open_window_eq_of_build_ok backend dim title opt window hb] at h
      have hd := congrArg Prod.fst h
      simp only [Except.ok.injEq] at hd
      cases dim <;>
        simp [← hd, Device.width, Device.height, requested_dims]

/-- C1 witness: on a backend reporting 800x600 where every build succeeds,
`open_window(Windowed(800,600), "t", WindowOpt::default())` yields a device
with `width() == 800` and `height() == 600`. -/
theorem open_window_size_matches_request_witness :
    dev800.width = 800 ∧ dev800.height = 600 :=
  open_window_size_matches_request ok_backend (WindowDim.Windowed 800 600) "t"
    WindowOpt.default dev800 trace800 rfl

/-- C2: `DeviceError` has no variant besides `CreationError`; `open_window`
returns an error exactly when the underlying window/context construction
fails, wrapping exactly that failure; and construction is attempted exactly
once per call (exactly one build effect in every trace, error or success). -/
theorem device_error_single_wrapped_creation_failure (backend : Backend)
    (dim : WindowDim) (title : String) (opt : WindowOpt) (e : DeviceError)
    (ce : CreationError) :
    (∃ c, e = DeviceError.CreationError c) ∧
    ((open_window backend dim title opt).1 =
        Except.error (DeviceError.CreationError ce) ↔
      backend.build_strict (requested_builder backend dim title) =
        Except.error ce) ∧
    (open_window backend dim title opt).2.countP is_build_effect = 1 := by
  refine ⟨?_, ?_, ?_⟩
  · cases e with
    | CreationError c => exact ⟨c, rfl⟩
  · cases hb : backend.build_strict (requested_builder backend dim title) with
    | error ce' =>
        rw [open_window_eq_of_build_error backend dim title opt ce' hb]
        simp [hb]
    | ok window =>
        rw [open_window_eq_of_build_ok backend dim title opt window hb]
        simp [hb]
  · cases hb : backend.build_strict (requested_builder backend dim title) with
    | error ce' =>
        rw [open_window_eq_of_build_error backend dim title opt ce' hb]
        simp [is_build_effect]
    | ok window =>
        rw [open_window_eq_of_build_ok backend dim title opt window hb]
        cases hc : opt.hide_cursor <;>
          simp [success_trace, is_build_effect, hc, List.countP_cons]

/-- C2 witness: the characterization at a concrete failing backend and the
concrete wrapped error. -/
theorem device_error_single_wrapped_creation_failure_witness :
    (∃ c, DeviceError.CreationError ⟨7⟩ = DeviceError.CreationError c) ∧
    ((open_window fail_backend (WindowDim.Windowed 1 2) "t"
        WindowOpt.default).1 =
        Except.error (DeviceError.CreationError ⟨7⟩) ↔
      fail_backend.build_strict
          (requested_builder fail_backend (WindowDim.Windowed 1 2) "t") =
        Except.error ⟨7⟩) ∧
    (open_window fail_backend (WindowDim.Windowed 1 2) "t"
        WindowOpt.default).2.countP is_build_effect = 1 :=
  device_error_single_wrapped_creation_failure fail_backend
    (WindowDim.Windowed 1 2) "t" WindowOpt.default
    (DeviceError.CreationError ⟨7⟩) ⟨7⟩

/-- C6 counterexample: a successful `open_window` call with the default
options (`hide_cursor == false`) performs no cursor-visibility call at all —
contradicting the claim that the visibility is then cleared (set visible). -/
theorem cursor_visibility_not_cleared_on_false :
    (∃ d, (open_window ok_backend (WindowDim.Windowed 1 1) "t"
        WindowOpt.default).1 = Except.ok d) ∧
    (open_window ok_backend (WindowDim.Windowed 1 1) "t"
        WindowOpt.default).2.countP is_set_cursor_effect = 0 :=
  ⟨⟨_, rfl⟩, rfl⟩

/-- C6 (amended): on every successful `open_window` call the factory sets the
cursor hidden (`NoneCursor`) exactly when `opt.hide_cursor` is true; when it
is false it issues no cursor-visibility call, leaving the platform default
(visible) in place. -/
theorem cursor_hidden_only_when_requested (backend : Backend)
    (dim : WindowDim) (title : String) (opt : WindowOpt) (d : Device)
    (tr : List Effect)
    (h : open_window backend dim title opt = (Except.ok d, tr)) :
    tr.filter is_set_cursor_effect =
      (if opt.hide_cursor then
        [Effect.SetCursor d.window MouseCursor.NoneCursor]
      else []) := by
  cases hb : backend.build_strict (requested_builder backend dim title) with
  | error ce =>
      rw [open_window_eq_of_build_error backend dim title opt ce hb] at h
      exact absurd h (by simp)
  | ok window =>
      rw [open_window_eq_of_build_ok backend dim title opt window hb] at h
      have hd := congrArg Prod.fst h
      have ht := congrArg Prod.snd h
      simp only [Except.ok.injEq] at hd ht
      cases hc : opt.hide_cursor <;>
        simp [← ht, ← hd, success_trace, is_set_cursor_effect, hc]

/-- C6 (amended) witness: with `hide_cursor(true)` the successful call's
trace holds exactly the one hiding cursor call. -/
theorem cursor_hidden_only_when_requested_witness :
    trace_hide.filter is_set_cursor_effect =
      (if (WindowOpt.default.hide_cursor' true).hide_cursor then
        [Effect.SetCursor dev_hide.window MouseCursor.NoneCursor]
      else []) :=
  cursor_hidden_only_when_requested ok_backend (WindowDim.Windowed 1 1) "t"
    (WindowOpt.default.hide_cursor' true) dev_hide trace_hide rfl

/-- C7: on every successful `open_window` call, the trace restricted to
{make-current, GL load, relay spawn} is exactly make-current on the created
window, then the GL load through that window's symbol resolver, then the
relay-thread spawn: the context is current and the GL table populated before
the relay thread is spawned, and all of it before the call returns `Ok`. -/
theorem make_current_and_gl_load_before_relay_spawn (backend : Backend)
    (dim : WindowDim) (title : String) (opt : WindowOpt) (d : Device)
    (tr : List Effect)
    (h : open_window backend dim title opt = (Except.ok d, tr)) :
    tr.filter is_sync_effect =
      [Effect.MakeCurrent d.window, Effect.GlLoad d.window,
       Effect.SpawnRelayThread] := by
  cases hb : backend.build_strict (requested_builder backend dim title) with
  | error ce =>
      rw [open_window_eq_of_build_error backend dim title opt ce hb] at h
      exact absurd h (by simp)
  | ok window =>
      rw [open_window_eq_of_build_ok backend dim title opt window hb] at h
      have hd := congrArg Prod.fst h
      have ht := congrArg Prod.snd h
      simp only [Except.ok.injEq] at hd ht
      cases hc : opt.hide_cursor <;>
        simp [← ht, ← hd, success_trace, is_sync_effect, hc]

/-- C7 witness: the ordered sync effects of a concrete successful call. -/
theorem make_current_and_gl_load_before_relay_spawn_witness :
    trace_hide.filter is_sync_effect =
      [Effect.MakeCurrent dev_hide.window, Effect.GlLoad dev_hide.window,
       Effect.SpawnRelayThread] :=
  make_current_and_gl_load_before_relay_spawn ok_backend
    (WindowDim.Windowed 1 1) "t" (WindowOpt.default.hide_cursor' true)
    dev_hide trace_hide rfl

/-- C9: when window/context construction fails (for any `WindowDim` variant),
`open_window` returns the error having performed only the single build
attempt: no make-current, no cursor-visibility call, no GL load, no channel
creation and no relay-thread spawn appear in the trace. -/
theorem failed_build_returns_without_side_effects (backend : Backend)
    (dim : WindowDim) (title : String) (opt : WindowOpt) (e : DeviceError)
    (tr : List Effect)
    (h : open_window backend dim title opt = (Except.error e, tr)) :
    tr = [Effect.BuildWindow (requested_builder backend dim title)] := by
  cases hb : backend.build_strict (requested_builder backend dim title) with
  | error ce =>
      rw [open_window_eq_of_build_error backend dim title opt ce hb] at h
      have ht := congrArg Prod.snd h
      simpa using ht.symm
  | ok window =>
      rw [open_window_eq_of_build_ok backend dim title opt window hb] at h
      exact absurd h (by simp)

/-- C9 witness: the failure trace of a concrete failing fullscreen call. -/
theorem failed_build_returns_without_side_effects_witness :
    [Effect.BuildWindow (requested_builder fail_backend WindowDim.Fullscreen "t")] =
      [Effect.BuildWindow (requested_builder fail_backend WindowDim.Fullscreen "t")] :=
  failed_build_returns_without_side_effects fail_backend WindowDim.Fullscreen
    "t" WindowOpt.default (DeviceError.CreationError ⟨7⟩)
    [Effect.BuildWindow (requested_builder fail_backend WindowDim.Fullscreen "t")]
    rfl
